import Mathlib

/-!
Verification of the hyperknow-homework repository.

The repository holds three near-duplicate agent scripts (`agent.py`, `2.py`,
`3.py`) that orchestrate a three-tool dispatch loop against a completion
service: a knowledge lookup over `memory.json`, a keyword search over
`file_metadata.json`, and a streamed reply generator.  This file shallowly
embeds the data model, the tool bodies and the dispatch loops of the three
scripts, treating the completion service, the stream and Python's
`json.loads` as external collaborators (they appear as explicit parameters:
a response script, a chunk list, and a parse oracle `jp`).
-/

set_option maxRecDepth 4000

/-! ## JSON values

Values produced by Python's `json.loads` and fed to the tools as arguments.
Numbers are modelled as integers (no float appears in the repository's data).
-/

inductive Json where
  | null : Json
  | bool : Bool → Json
  | num : Int → Json
  | str : String → Json
  | arr : List Json → Json
  | obj : List (String × Json) → Json

/-- Python truthiness (`if x:`) of a JSON value: `None`, `False`, `0`, `""`,
`[]` and `{}` are falsy, everything else truthy. -/
def pyTruthy : Json → Bool
  | Json.null => false
  | Json.bool b => b
  | Json.num n => n != 0
  | Json.str s => !s.isEmpty
  | Json.arr xs => !xs.isEmpty
  | Json.obj fs => !fs.isEmpty

/-- Python hashability of a JSON value: lists and dicts are unhashable,
so using one as a `dict` membership probe raises `TypeError`. -/
def pyUnhashable : Json → Bool
  | Json.arr _ => true
  | Json.obj _ => true
  | _ => false

/-- Python's `AttributeError` message for `x.lower()` on a non-string
value (the reachable cases; a string never raises). -/
def pyLowerAttrErr : Json → String
  | Json.null => "'NoneType' object has no attribute 'lower'"
  | Json.bool _ => "'bool' object has no attribute 'lower'"
  | Json.num _ => "'int' object has no attribute 'lower'"
  | Json.arr _ => "'list' object has no attribute 'lower'"
  | Json.obj _ => "'dict' object has no attribute 'lower'"
  | Json.str _ => ""

/-- Python iteration over a JSON value (`for title in file_titles`): a
list yields its elements, a dict its keys, a string its characters; other
values raise `TypeError` with the given message. -/
def pyIterate : Json → Except String (List Json)
  | Json.arr xs => Except.ok xs
  | Json.obj fs => Except.ok (fs.map (fun p => Json.str p.1))
  | Json.str s => Except.ok (s.toList.map (fun c => Json.str (String.singleton c)))
  | Json.null => Except.error "'NoneType' object is not iterable"
  | Json.bool _ => Except.error "'bool' object is not iterable"
  | Json.num _ => Except.error "'int' object is not iterable"

mutual

/-- Python's `repr` of a JSON value (quote-style corner cases of nested
string escaping simplified; reached only when a non-string value is
formatted into message or prompt text). -/
def pyRepr : Json → String
  | Json.null => "None"
  | Json.bool b => if b then "True" else "False"
  | Json.num n => toString n
  | Json.str s => "'" ++ s ++ "'"
  | Json.arr xs => "[" ++ pyReprList xs ++ "]"
  | Json.obj fs => "\x7b" ++ pyReprFields fs ++ "\x7d"

def pyReprList : List Json → String
  | [] => ""
  | [x] => pyRepr x
  | x :: y :: xs => pyRepr x ++ ", " ++ pyReprList (y :: xs)

def pyReprFields : List (String × Json) → String
  | [] => ""
  | [(k, v)] => "'" ++ k ++ "': " ++ pyRepr v
  | (k, v) :: f :: fs => "'" ++ k ++ "': " ++ pyRepr v ++ ", " ++ pyReprFields (f :: fs)

end

/-- Python's `str(x)` (as used by f-string interpolation): identity on
strings, `repr`-style rendering otherwise. -/
def pyStrOf : Json → String
  | Json.str s => s
  | j => pyRepr j

/-! ## Python string helpers -/

/-- Membership of one character list in another as a contiguous run:
Python's substring operator `needle in haystack`. -/
def pyInChars (needle : List Char) : List Char → Bool
  | [] => needle.isEmpty
  | c :: rest => needle.isPrefixOf (c :: rest) || pyInChars needle rest

/-- Python's `needle in haystack` on strings (substring containment;
the empty needle is contained in every string). -/
def pyIn (needle haystack : String) : Bool :=
  pyInChars needle.toList haystack.toList

/-- Python's `str.lower()` (character-wise lowering). -/
def pyLower (s : String) : String :=
  String.mk (s.toList.map Char.toLower)

/-- Worker for `pySplit`: walk the characters, collecting the current
token in reverse; whitespace ends a token, empty tokens are dropped. -/
def pySplitAux : List Char → List Char → List String
  | [], acc => if acc.isEmpty then [] else [String.mk acc.reverse]
  | c :: rest, acc =>
    if c.isWhitespace then
      if acc.isEmpty then pySplitAux rest []
      else String.mk acc.reverse :: pySplitAux rest []
    else pySplitAux rest (c :: acc)

/-- Python's no-argument `str.split()`: split on runs of whitespace and
drop empty pieces. -/
def pySplit (s : String) : List String :=
  pySplitAux s.toList []

/-- Python's `str.find(c)`: index of the first occurrence, `-1` if absent. -/
def pyFind (cs : List Char) (c : Char) : Int :=
  match cs.findIdx? (· = c) with
  | some i => (i : Int)
  | none => -1

/-- Python's `str.rfind(c)`: index of the last occurrence, `-1` if absent. -/
def pyRfind (cs : List Char) (c : Char) : Int :=
  match cs.reverse.findIdx? (· = c) with
  | some i => (cs.length : Int) - 1 - i
  | none => -1

/-- Python's slice `s[a:b]` (negative indices count from the end and
out-of-range bounds are clamped). -/
def pySlice (s : String) (a b : Int) : String :=
  let cs := s.toList
  let n := cs.length
  let start := if a < 0 then ((n : Int) + a).toNat else min a.toNat n
  let stop := if b < 0 then ((n : Int) + b).toNat else min b.toNat n
  String.mk ((cs.drop start).take (stop - start))

/-! ## `json.dumps` for the payload shapes the scripts serialize

`2.py` passes `ensure_ascii=False` (non-ASCII characters kept verbatim),
`3.py` uses the default `ensure_ascii=True` (non-ASCII escaped as
`\uxxxx`, with surrogate pairs above the BMP).  Separators are the
defaults `", "` and `": "`.
-/

def hexDigit (n : Nat) : Char :=
  if n < 10 then Char.ofNat (48 + n) else Char.ofNat (87 + n)

def hex4 (n : Nat) : String :=
  String.mk [hexDigit (n / 4096 % 16), hexDigit (n / 256 % 16),
             hexDigit (n / 16 % 16), hexDigit (n % 16)]

/-- Escape one character the way `json.dumps` does. -/
def jsonEscapeChar (ensureAscii : Bool) (c : Char) : String :=
  if c = Char.ofNat 34 then "\\\""
  else if c = Char.ofNat 92 then "\\\\"
  else if c = Char.ofNat 10 then "\\n"
  else if c = Char.ofNat 13 then "\\r"
  else if c = Char.ofNat 9 then "\\t"
  else if c.val < 32 then "\\u" ++ hex4 c.toNat
  else if ensureAscii && c.val > 126 then
    if c.toNat ≤ 0xFFFF then "\\u" ++ hex4 c.toNat
    else
      let v := c.toNat - 0x10000
      "\\u" ++ hex4 (0xD800 + v / 0x400) ++ "\\u" ++ hex4 (0xDC00 + v % 0x400)
  else String.singleton c

/-- `json.dumps` of a string value. -/
def dumpsStr (ensureAscii : Bool) (s : String) : String :=
  "\"" ++ String.join (s.toList.map (jsonEscapeChar ensureAscii)) ++ "\""

/-- `json.dumps({"error": msg})`. -/
def dumpsErrObj (ensureAscii : Bool) (msg : String) : String :=
  "\x7b\"error\": " ++ dumpsStr ensureAscii msg ++ "\x7d"

/-- `json.dumps` of a list of strings. -/
def dumpsStrList (ensureAscii : Bool) (xs : List String) : String :=
  "[" ++ String.intercalate ", " (xs.map (dumpsStr ensureAscii)) ++ "]"

/-! ## Record stores (`memory.json`, `file_metadata.json`)

Both files are read-only JSON mappings; Python `dict`s preserve insertion
order, so they are modelled as association lists in store order.
-/

/-- One value of the `knowledge_levels` mapping in `memory.json`. -/
structure KnowledgeRecord where
  level : Int
  detailed_description : String
deriving Repr, DecidableEq

/-- The parsed `memory.json`: `data.get("knowledge_levels", {})`. -/
structure MemoryDB where
  knowledge_levels : List (String × KnowledgeRecord)
deriving Repr, DecidableEq

/-- One value of the `file_metadata.json` mapping: `info.get("content", "")`. -/
structure FileRecord where
  content : String
deriving Repr, DecidableEq

/-- The parsed `file_metadata.json`, keyed by file title. -/
abbrev FilesDB := List (String × FileRecord)

/-- `json.dumps` of a knowledge record (field order as stored). -/
def dumpsRecord (ensureAscii : Bool) (r : KnowledgeRecord) : String :=
  "\x7b\"level\": " ++ toString r.level ++ ", \"detailed_description\": "
    ++ dumpsStr ensureAscii r.detailed_description ++ "\x7d"

/-- Outcome of `open(...)`/`json.load(...)` on a store file.  The message
carries Python's `str(e)` for the raised exception. -/
inductive StoreErr where
  | fileNotFound : String → StoreErr
  | malformed : String → StoreErr
deriving Repr, DecidableEq

def StoreErr.msg : StoreErr → String
  | StoreErr.fileNotFound m => m
  | StoreErr.malformed m => m

/-- The external world a tool call sees in `2.py`/`3.py`: the two store
files (each read anew inside the tool, so each may fail) and the chunk
sequence a successful completion stream delivers. -/
structure Env where
  mem : Except StoreErr MemoryDB
  files : Except StoreErr FilesDB
  chunks : List String

/-! ## Shared context assembly

Every reply tool walks the given titles in order and, for each title that
is a key of the file store, appends a block with the full stored content;
absent titles contribute nothing.  `agent.py` labels blocks `File`, the
other two scripts `文件名`.
-/

def contextBlock (label title content : String) : String :=
  "\n--- " ++ label ++ ": " ++ title ++ " ---\n" ++ content ++ "\n"

/-- The `for title in file_titles: if title in db: context += ...` loop,
over string titles (`agent.py`). -/
def buildContextStr (label : String) (db : FilesDB) (titles : List String) : String :=
  titles.foldl (fun acc t =>
    match db.lookup t with
    | some rec => acc ++ contextBlock label t rec.content
    | none => acc) ""

/-- The same loop over JSON-valued title elements (`2.py`/`3.py`, where
the titles arrive from parsed JSON): a hashable non-string element equals
no `dict` key and contributes nothing, while an unhashable element (list
or dict) raises `TypeError` at `title in all_files_data`, discarding the
accumulated context (the enclosing `try` turns it into the tool's error
result). -/
def buildContextJ (label : String) (db : FilesDB) :
    List Json → String → Except String String
  | [], acc => Except.ok acc
  | t :: ts, acc =>
    match t with
    | Json.str s =>
      (match db.lookup s with
       | some rec => buildContextJ label db ts (acc ++ contextBlock label s rec.content)
       | none => buildContextJ label db ts acc)
    | Json.arr _ => Except.error "unhashable type: 'list'"
    | Json.obj _ => Except.error "unhashable type: 'dict'"
    | _ => buildContextJ label db ts acc

/-- Accumulated stream text in `2.py`/`3.py`: chunks with falsy (empty)
text are skipped (`if chunk.text:` / `if ...delta.content:`). -/
def pyStreamText (chunks : List String) : String :=
  String.join (chunks.filter (fun c => !c.isEmpty))

/-- Observable outcome of a reply tool: either an early textual return
(before any prompt is sent), or a prompt sent to the completion service,
the text streamed to the console, and the tool's return value. -/
inductive ReplyResult where
  | early : String → ReplyResult
  | streamedOut : String → String → String → ReplyResult
deriving Repr, DecidableEq

/-- The tool's return value. -/
def ReplyResult.ret : ReplyResult → String
  | ReplyResult.early r => r
  | ReplyResult.streamedOut _ _ r => r

/-- The text emitted to the console chunk by chunk (empty for an early return). -/
def ReplyResult.streamed : ReplyResult → String
  | ReplyResult.early _ => ""
  | ReplyResult.streamedOut _ s _ => s

/-! ## `agent.py` (google-genai variant, automatic function calling)

The stores are loaded once at module import time (`MEMORY_DB`, `FILES_DB`)
with no exception handler; tools then read the in-memory dictionaries.
-/

namespace Agent

/-- The module-level state of `agent.py` after a successful import. -/
structure Init where
  MEMORY_DB : MemoryDB
  FILES_DB : FilesDB

/-- Module-level store loading of `agent.py` (lines 17-21): two bare
`open`/`json.load` calls with no `try`/`except`, so a failing read
propagates and the script never reaches any tool. -/
def moduleInit (memSrc : Except StoreErr MemoryDB)
    (filesSrc : Except StoreErr FilesDB) : Except StoreErr Init :=
  match memSrc with
  | Except.error e => Except.error e
  | Except.ok m =>
    match filesSrc with
    | Except.error e => Except.error e
    | Except.ok f => Except.ok ⟨m, f⟩

/-- Tool 1, `get_memory`: return the formatted record of the first key
that contains the lower-cased category as a substring (both sides
lower-cased), else a fixed not-found sentence. -/
def get_memory (db : MemoryDB) (category : String) : String :=
  match db.knowledge_levels.find?
      (fun kv => pyIn (pyLower category) (pyLower kv.1)) with
  | some kv =>
    "User Knowledge in " ++ kv.1 ++ ": Level=" ++ toString kv.2.level
      ++ ". Details: " ++ kv.2.detailed_description
  | none => "No specific memory found for this category."

/-- Tool 2, `search_files`: lower-case and whitespace-split the keywords;
keep each file whose content or title contains at least one token. -/
def search_files (db : FilesDB) (keywords : String) : List String :=
  let kw_list := pySplit (pyLower keywords)
  (db.filter (fun fd =>
    kw_list.any (fun k =>
      pyIn k (pyLower fd.2.content) || pyIn k (pyLower fd.1)))).map Prod.fst

/-- The prompt template of `generate_reply_tool` (lines 93-107). -/
def final_prompt (user_context full_context instruction : String) : String :=
  "\n    You are a helpful tutor.\n\n    [User Context]\n    " ++ user_context
    ++ "\n\n    [Reference Materials]\n    " ++ full_context
    ++ "\n\n    [Instruction]\n    " ++ instruction
    ++ "\n\n    Please provide a comprehensive answer based strictly on the materials above.\n"
    ++ "    Adjust the complexity to match the User Context.\n    "

/-- Tool 3, `generate_reply_tool`: build the context block from the given
titles, stream the completion (accumulating every `chunk.text`), and
return a fixed confirmation string.  `chunks` is the successful stream's
chunk sequence. -/
def generate_reply_tool (db : FilesDB) (instruction : String)
    (file_titles : List String) (user_context : String)
    (chunks : List String) : ReplyResult :=
  let full_context := buildContextStr "File" db file_titles
  ReplyResult.streamedOut (final_prompt user_context full_context instruction)
    (String.join chunks)
    "Reply generated and streamed to user successfully."

end Agent

/-! ## `2.py` (prompt-driven variant, manual JSON tool-call parsing) -/

namespace P2

/-- `memory_load_function`: re-read `memory.json`; exact membership test of
the lower-cased subject among the `knowledge_levels` keys; `json.dumps`
with `ensure_ascii=False` of the record or of an error object.  Any read
failure is caught and serialized. -/
def memory_load_function (memSrc : Except StoreErr MemoryDB)
    (subject : String) : String :=
  match memSrc with
  | Except.error e => dumpsErrObj false ("读取记忆文件出错: " ++ e.msg)
  | Except.ok db =>
    match db.knowledge_levels.lookup (pyLower subject) with
    | some r => dumpsRecord false r
    | none => dumpsErrObj false ("未找到 " ++ subject ++ " 的记忆信息")

/-- The search of `select_files`: keep each file whose lower-cased content
contains the whole lower-cased query as one substring (the title is not
inspected and the query is not tokenized). -/
def select_files_hits (db : FilesDB) (query : String) : List String :=
  (db.filter (fun fd => pyIn (pyLower query) (pyLower fd.2.content))).map Prod.fst

/-- `select_files`: re-read `file_metadata.json`; a missing file yields the
dedicated error payload, any other failure the generic one; otherwise the
hit list is serialized. -/
def select_files (filesSrc : Except StoreErr FilesDB) (query : String) : String :=
  match filesSrc with
  | Except.error (StoreErr.fileNotFound _) =>
    dumpsErrObj false "找不到 file_metadata.json 文件"
  | Except.error (StoreErr.malformed m) =>
    dumpsErrObj false ("搜索文件出错: " ++ m)
  | Except.ok db => dumpsStrList false (select_files_hits db query)

/-- The prompt template of `reply_generator` (lines 69-74); an empty
context block is replaced by `无`. -/
def final_prompt (instruction context_content : String) : String :=
  "\n    【角色】天文课助教，适配初学者水平\n    【指令】" ++ instruction
    ++ "\n    【参考资料】" ++ (if context_content.isEmpty then "无" else context_content)
    ++ "\n    【要求】分点总结，通俗易懂，避免专业术语。\n    "

/-- `reply_generator` applied to an arbitrary bound `file_titles` value:
everything from the store read through the title iteration sits inside
one `try`, so a failed read, a non-iterable titles value or an unhashable
title element all return the `读取文件内容出错` error payload (the first
failure wins, in source order).  Otherwise the completion is streamed
(skipping falsy chunks) and a JSON success payload embedding the full
accumulated text is returned. -/
def reply_gen_dyn (filesSrc : Except StoreErr FilesDB) (file_titles : Json)
    (instruction : String) (chunks : List String) : ReplyResult :=
  match filesSrc with
  | Except.error e =>
    ReplyResult.early (dumpsErrObj false ("读取文件内容出错: " ++ e.msg))
  | Except.ok db =>
    match pyIterate file_titles with
    | Except.error m =>
      ReplyResult.early (dumpsErrObj false ("读取文件内容出错: " ++ m))
    | Except.ok titles =>
      match buildContextJ "文件名" db titles "" with
      | Except.error m =>
        ReplyResult.early (dumpsErrObj false ("读取文件内容出错: " ++ m))
      | Except.ok context_content =>
        let full_text := pyStreamText chunks
        ReplyResult.streamedOut (final_prompt instruction context_content)
          full_text
          ("\x7b\"status\": " ++ dumpsStr false "success" ++ ", \"reply\": "
            ++ dumpsStr false full_text ++ "\x7d")

/-- `reply_generator` on a title list proper (the intended call shape). -/
def reply_generator (filesSrc : Except StoreErr FilesDB)
    (file_titles : List Json) (instruction : String)
    (chunks : List String) : ReplyResult :=
  reply_gen_dyn filesSrc (Json.arr file_titles) instruction chunks

/-- `memory_load_function` applied to an arbitrary bound `subject` value:
the store is opened first, then `subject.lower()` runs inside the same
`try`, so a non-string subject's `AttributeError` is caught by the same
handler as a failed read. -/
def memory_load_dyn (memSrc : Except StoreErr MemoryDB) (subject : Json) : String :=
  match memSrc with
  | Except.error e => dumpsErrObj false ("读取记忆文件出错: " ++ e.msg)
  | Except.ok db =>
    match subject with
    | Json.str s => memory_load_function (Except.ok db) s
    | other => dumpsErrObj false ("读取记忆文件出错: " ++ pyLowerAttrErr other)

/-- `select_files` applied to an arbitrary bound `query` value:
`query.lower()` runs inside the per-file loop, so with an empty store a
non-string query still returns the empty hit list, and with a non-empty
store its `AttributeError` is caught by the generic handler. -/
def select_files_dyn (filesSrc : Except StoreErr FilesDB) (query : Json) : String :=
  match filesSrc with
  | Except.error (StoreErr.fileNotFound _) =>
    dumpsErrObj false "找不到 file_metadata.json 文件"
  | Except.error (StoreErr.malformed m) =>
    dumpsErrObj false ("搜索文件出错: " ++ m)
  | Except.ok db =>
    match query with
    | Json.str q => select_files (Except.ok db) q
    | other =>
      match db with
      | [] => dumpsStrList false []
      | _ => dumpsErrObj false ("搜索文件出错: " ++ pyLowerAttrErr other)

end P2

/-! ## `3.py` (OpenAI-compatible variant, native tool calling)

Same stores and search logic as `2.py`, but `json.dumps` keeps its default
`ensure_ascii=True`, and `reply_generator` receives its title list as a
JSON **string** that it parses itself.
-/

namespace P3

/-- `memory_load_function` of `3.py`: as in `2.py` but with default
`ensure_ascii`. -/
def memory_load_function (memSrc : Except StoreErr MemoryDB)
    (subject : String) : String :=
  match memSrc with
  | Except.error e => dumpsErrObj true ("读取记忆文件出错: " ++ e.msg)
  | Except.ok db =>
    match db.knowledge_levels.lookup (pyLower subject) with
    | some r => dumpsRecord true r
    | none => dumpsErrObj true ("未找到 " ++ subject ++ " 的记忆信息")

/-- `select_files` of `3.py`: single generic `except` branch (even a
missing file is reported through `str(e)`). -/
def select_files (filesSrc : Except StoreErr FilesDB) (query : String) : String :=
  match filesSrc with
  | Except.error e => dumpsErrObj true ("搜索文件出错: " ++ e.msg)
  | Except.ok db => dumpsStrList true (P2.select_files_hits db query)

/-- The prompt template of `reply_generator` (lines 84-89). -/
def final_prompt (instruction context_content : String) : String :=
  "\n    【角色】天文课助教\n    【用户指令】" ++ instruction
    ++ "\n    【参考资料】" ++ (if context_content.isEmpty then "无" else context_content)
    ++ "\n    【要求】请根据参考资料和指令，生成详细的总结。\n    "

/-- The body of `3.py`'s `reply_generator` after the title parse: the
store read, the title iteration and the membership tests all sit inside
one `try`, so a failed read, a non-iterable parsed value or an unhashable
title element each return the plain (non-JSON) `读取文件内容出错` message
— never an exception.  Otherwise the completion is streamed and the fixed
confirmation sentence is returned. -/
def reply_gen_with_titles (filesSrc : Except StoreErr FilesDB)
    (parsed : Json) (instruction : String) (chunks : List String) : ReplyResult :=
  match filesSrc with
  | Except.error e =>
    ReplyResult.early ("读取文件内容出错: " ++ e.msg)
  | Except.ok db =>
    match pyIterate parsed with
    | Except.error m => ReplyResult.early ("读取文件内容出错: " ++ m)
    | Except.ok file_titles =>
      match buildContextJ "文件名" db file_titles "" with
      | Except.error m => ReplyResult.early ("读取文件内容出错: " ++ m)
      | Except.ok context_content =>
        ReplyResult.streamedOut (final_prompt instruction context_content)
          (pyStreamText chunks) "回复已生成完毕。"

/-- `reply_generator` of `3.py`: parse the title list itself from the JSON
string (`jp` models `json.loads`; a parse failure silently becomes the
empty list via the bare `except`), then proceed as above. -/
def reply_generator (jp : String → Option Json)
    (filesSrc : Except StoreErr FilesDB) (file_titles_json : String)
    (instruction : String) (chunks : List String) : ReplyResult :=
  reply_gen_with_titles filesSrc
    (match jp file_titles_json with
     | some j => j
     | none => Json.arr [])
    instruction chunks

/-- `memory_load_function` applied to an arbitrary bound `subject` value
(as in `2.py`, the non-string `AttributeError` is caught by the same
handler as a failed read). -/
def memory_load_dyn (memSrc : Except StoreErr MemoryDB) (subject : Json) : String :=
  match memSrc with
  | Except.error e => dumpsErrObj true ("读取记忆文件出错: " ++ e.msg)
  | Except.ok db =>
    match subject with
    | Json.str s => memory_load_function (Except.ok db) s
    | other => dumpsErrObj true ("读取记忆文件出错: " ++ pyLowerAttrErr other)

/-- `select_files` applied to an arbitrary bound `query` value
(`query.lower()` runs inside the per-file loop; single generic
handler). -/
def select_files_dyn (filesSrc : Except StoreErr FilesDB) (query : Json) : String :=
  match filesSrc with
  | Except.error e => dumpsErrObj true ("搜索文件出错: " ++ e.msg)
  | Except.ok db =>
    match query with
    | Json.str q => select_files (Except.ok db) q
    | other =>
      match db with
      | [] => dumpsStrList true []
      | _ => dumpsErrObj true ("搜索文件出错: " ++ pyLowerAttrErr other)

end P3

/-! ## Dispatch loops

The completion service is external: a run is driven by a *script*, the
finite sequence of responses the service would return, one per completion
request, in order.  Exhausting the script mid-loop models a transport
failure (fatal for the request).  `jp` models Python's `json.loads`
(`none` = the library raised).
-/

/-- The registered tool names (`TOOL_MAP` in `2.py`,
`available_functions` in `3.py` — identical). -/
def TOOL_MAP_names : List String :=
  ["memory_load_function", "select_files", "reply_generator"]

/-- Keyword binding of a one-parameter tool call (`f(**args)` with one
expected parameter name): Python binds any value; only a non-mapping
argument object, a wrong keyword or a wrong arity raise `TypeError` at
the call itself. -/
def bindArg1 (args : Json) (k : String) : Option Json :=
  match args with
  | Json.obj [(k', v)] => if k' = k then some v else none
  | _ => none

/-- Keyword binding of a two-parameter tool call, order-insensitive as in
Python; values are bound unchecked. -/
def bindArgs2 (args : Json) (k1 k2 : String) : Option (Json × Json) :=
  match args with
  | Json.obj [(a, va), (b, vb)] =>
    if a = k1 ∧ b = k2 then some (va, vb)
    else if a = k2 ∧ b = k1 then some (vb, va)
    else none
  | _ => none

namespace P2

/-- Extraction of the widest `{...}` span of the model's reply
(`_parse_function_call` lines 133-135): `model_response[start:end]` with
`start = find("\x7b")` and `end = rfind("\x7d") + 1`, Python slice
semantics included. -/
def extract_json_span (s : String) : String :=
  pySlice s (pyFind s.toList (Char.ofNat 123)) (pyRfind s.toList (Char.ofNat 125) + 1)

/-- `_parse_function_call`: parse the extracted span and return its
`call_function` entry, with `\x7b\x7d` (the empty object, falsy) when parsing
fails, when the parse result is not an object (`.get` raises inside the
`try`), or when the key is absent. -/
def parse_function_call (jp : String → Option Json) (model_response : String) : Json :=
  match jp (extract_json_span model_response) with
  | some (Json.obj fs) =>
    match fs.lookup "call_function" with
    | some v => v
    | none => Json.obj []
  | some _ => Json.obj []
  | none => Json.obj []

/-- `TOOL_MAP[func_name](**func_args)`: bind the keyword arguments and
invoke the tool body on the bound values; only a failed binding raises
(`TypeError`, to be caught by `_execute_function`'s `try`) — the tool
bodies themselves catch their own failures and return payload strings. -/
def callTool (env : Env) (name : String) (args : Json) : Except String String :=
  if name = "memory_load_function" then
    match bindArg1 args "subject" with
    | some v => Except.ok (memory_load_dyn env.mem v)
    | none => Except.error "TypeError"
  else if name = "select_files" then
    match bindArg1 args "query" with
    | some v => Except.ok (select_files_dyn env.files v)
    | none => Except.error "TypeError"
  else if name = "reply_generator" then
    match bindArgs2 args "file_titles" "instruction" with
    | some (tj, instr) =>
      Except.ok (reply_gen_dyn env.files tj (pyStrOf instr) env.chunks).ret
    | none => Except.error "TypeError"
  else Except.error ("KeyError: " ++ name)

/-- `_execute_function` (lines 142-151): the guard `func_name not in
TOOL_MAP` runs *before* the `try`, so an unhashable name (list/dict)
raises `TypeError` out of the method; a hashable unregistered name yields
the `函数…不存在` payload; exceptions from the call expression itself
(binding failures) are caught and serialized by the `except`. -/
def execute_function (env : Env) (func_name : Json) (func_args : Json) :
    Except String String :=
  match func_name with
  | Json.arr _ => Except.error "TypeError: unhashable type: 'list'"
  | Json.obj _ => Except.error "TypeError: unhashable type: 'dict'"
  | Json.str n =>
    if TOOL_MAP_names.contains n then
      match callTool env n func_args with
      | Except.ok r => Except.ok r
      | Except.error e =>
        Except.ok (dumpsErrObj false ("执行 " ++ n ++ " 出错: " ++ e))
    else Except.ok (dumpsErrObj false ("函数 " ++ n ++ " 不存在"))
  | other => Except.ok (dumpsErrObj false ("函数 " ++ pyStrOf other ++ " 不存在"))

/-- The dispatch loop of `directorAgent.run` (lines 153-191), driven by
the stripped model outputs.  Consuming one script entry is one completion
request.  The result is the final reply text, the total number of
completion requests, and the tool results produced along the way; an
`error` is an exception escaping the loop (transport failure on an empty
script, `AttributeError` on a truthy non-dict `call_function` value at
line 172, or the `TypeError` `_execute_function` raises on an unhashable
name). -/
def run (jp : String → Option Json) (env : Env) :
    List String → Except String (String × Nat × List String)
  | [] => Except.error "CompletionServiceError"
  | out :: rest =>
    let func_call := parse_function_call jp out
    if pyTruthy func_call then
      match func_call with
      | Json.obj fs =>
        let func_name := (fs.lookup "name").getD Json.null
        let func_args := (fs.lookup "args").getD (Json.obj [])
        match execute_function env func_name func_args with
        | Except.error e => Except.error e
        | Except.ok func_result =>
          match run jp env rest with
          | Except.ok (fin, n, rs) => Except.ok (fin, n + 1, func_result :: rs)
          | Except.error e => Except.error e
      | _ => Except.error "AttributeError"
    else Except.ok (out, 1, [])

end P2

namespace P3

/-- One tool call of an OpenAI-style response (`tool_call.function.name`
plus its already-parsed `arguments`). -/
structure OAToolCall where
  name : String
  args : Json

/-- One response of the OpenAI-style completion service: text content plus
the (possibly empty) `tool_calls` list. -/
structure OAResp where
  content : String
  tool_calls : List OAToolCall

/-- `available_functions[function_name](**function_args)` in `3.py`:
unlike `2.py` nothing here is guarded — an unregistered name is an
uncaught `KeyError` and a failed keyword binding an uncaught `TypeError`;
everything past the binding is caught inside the tool bodies and returns
a payload.  A non-string `file_titles_json` makes `json.loads` raise,
which the tool's bare `except` absorbs into the empty title list.  `jp`
is the `json.loads` oracle for string title arguments. -/
def callTool (jp : String → Option Json) (env : Env) (c : OAToolCall) :
    Except String String :=
  if c.name = "memory_load_function" then
    match bindArg1 c.args "subject" with
    | some v => Except.ok (memory_load_dyn env.mem v)
    | none => Except.error "TypeError"
  else if c.name = "select_files" then
    match bindArg1 c.args "query" with
    | some v => Except.ok (select_files_dyn env.files v)
    | none => Except.error "TypeError"
  else if c.name = "reply_generator" then
    match bindArgs2 c.args "file_titles_json" "instruction" with
    | some (tjv, instrv) =>
      Except.ok (reply_gen_with_titles env.files
        (match tjv with
         | Json.str ftj =>
           (match jp ftj with
            | some j => j
            | none => Json.arr [])
         | _ => Json.arr [])
        (pyStrOf instrv) env.chunks).ret
    | none => Except.error "TypeError"
  else Except.error ("KeyError: " ++ c.name)

/-- The `for tool_call in tool_calls` body: execute each call in order,
stopping at the first uncaught exception. -/
def execCalls (jp : String → Option Json) (env : Env) :
    List OAToolCall → Except String Unit
  | [] => Except.ok ()
  | c :: cs =>
    match callTool jp env c with
    | Except.ok _ => execCalls jp env cs
    | Except.error e => Except.error e

/-- The dispatch loop of `HyperknowAgent.run` (lines 183-229).  Consuming
one script entry is one completion request; a response with a truthy
`tool_calls` list executes every call (appending each result) and loops,
one without ends the run with its content. -/
def run (jp : String → Option Json) (env : Env) :
    List OAResp → Except String (String × Nat)
  | [] => Except.error "CompletionServiceError"
  | r :: rest =>
    if r.tool_calls.isEmpty then Except.ok (r.content, 1)
    else
      match execCalls jp env r.tool_calls with
      | Except.error e => Except.error e
      | Except.ok _ =>
        match run jp env rest with
        | Except.ok (s, m) => Except.ok (s, m + 1)
        | Except.error e => Except.error e

end P3

/-! ## Event traces of the two loops

To state the outstanding-request invariant we record, in order, the
boundary events of a run: a completion request issued (`req`), a tool-call
request received from a response (`recv`), and a tool result sent back
(`sent` — in `2.py` the result travels inside the next completion request,
so its `sent` immediately precedes that `req`; in `3.py` it is appended to
the message list right after the call executes).
-/

inductive Ev where
  | req : Ev
  | recv : Ev
  | sent : Ev
deriving Repr, DecidableEq

/-- Checker for the outstanding-request invariant with bound `b`: walking
the trace with `k` tool-call requests currently outstanding, every
completion request must be issued with `k = 0`, at no point may more than
`b` requests be outstanding, and no result may be sent that was never
received. -/
def loopInv (b : Nat) : Nat → List Ev → Bool
  | k, [] => decide (k ≤ b)
  | k, Ev.req :: es => decide (k = 0) && loopInv b k es
  | k, Ev.recv :: es => decide (k + 1 ≤ b) && loopInv b (k + 1) es
  | k, Ev.sent :: es =>
    match k with
    | 0 => false
    | k' + 1 => loopInv b k' es

/-- Checker for the weaker invariant that every completion request is
issued with no outstanding tool result unsent (no bound on how many calls
one response may carry). -/
def reqZero : Nat → List Ev → Bool
  | _, [] => true
  | k, Ev.req :: es => decide (k = 0) && reqZero k es
  | k, Ev.recv :: es => reqZero (k + 1) es
  | k, Ev.sent :: es => reqZero (k - 1) es

/-- Event trace of `directorAgent.run` (`2.py`): each iteration issues one
request; a call-bearing response contributes one received call whose
result is sent back with the following request; a plain response ends the
run; a truthy non-dict `call_function` value aborts it (`AttributeError`),
as does the `TypeError` of an unhashable name (received but never
answered). -/
def P2.trace (jp : String → Option Json) (env : Env) : List String → List Ev
  | [] => [Ev.req]
  | out :: rest =>
    let func_call := P2.parse_function_call jp out
    if pyTruthy func_call then
      match func_call with
      | Json.obj fs =>
        match P2.execute_function env ((fs.lookup "name").getD Json.null)
            ((fs.lookup "args").getD (Json.obj [])) with
        | Except.ok _ => Ev.req :: Ev.recv :: Ev.sent :: P2.trace jp env rest
        | Except.error _ => [Ev.req, Ev.recv]
      | _ => [Ev.req]
    else [Ev.req]

/-- The `sent` events of one `3.py` execution round: one per call executed
before the first uncaught exception. -/
def P3.sentEvents (jp : String → Option Json) (env : Env) :
    List P3.OAToolCall → List Ev
  | [] => []
  | c :: cs =>
    match P3.callTool jp env c with
    | Except.ok _ => Ev.sent :: P3.sentEvents jp env cs
    | Except.error _ => []

/-- Event trace of `HyperknowAgent.run` (`3.py`): each iteration issues
one request; all tool calls of the response are received at once, then
executed and answered one by one; the loop continues only when every call
executed. -/
def P3.trace (jp : String → Option Json) (env : Env) : List P3.OAResp → List Ev
  | [] => [Ev.req]
  | r :: rest =>
    if r.tool_calls.isEmpty then [Ev.req]
    else
      Ev.req :: (r.tool_calls.map (fun _ => Ev.recv)
        ++ P3.sentEvents jp env r.tool_calls
        ++ match P3.execCalls jp env r.tool_calls with
           | Except.ok _ => P3.trace jp env rest
           | Except.error _ => [])

/-! ## Specification-side definitions and example data

`presentTitles`/`storedBlock` express the specified shape of a context
block — the titles found in the store, in the order given, each with its
full stored content — to be compared with the embedded builders.
The example stores mirror the spec's §8 scenario.
-/

/-- The titles of `titles` that are keys of the store, in the given order. -/
def presentTitles (db : FilesDB) (titles : List String) : List String :=
  titles.filter (fun t => (db.lookup t).isSome)

/-- The context block a stored title contributes: its full stored content. -/
def storedBlock (label : String) (db : FilesDB) (t : String) : String :=
  contextBlock label t (((db.lookup t).getD ⟨""⟩).content)

/-- The block a title contributes to the built context: its stored content
when present, nothing when absent (proof-side reformulation of one
`foldl` step). -/
def blockOf (label : String) (db : FilesDB) (t : String) : String :=
  match db.lookup t with
  | some rec => contextBlock label t rec.content
  | none => ""

/-- Example knowledge store: `{"astronomy": {"level": 2,
"detailed_description": "basic"}}` (spec §8). -/
def memDB0 : MemoryDB := ⟨[("astronomy", ⟨2, "basic"⟩)]⟩

/-- Example document store: `{"lec1.pdf": {"content": "sun orbit basics"}}`
(spec §8). -/
def filesDB0 : FilesDB := [("lec1.pdf", ⟨"sun orbit basics"⟩)]

/-- Example environment: both stores read successfully, empty stream. -/
def env0 : Env := ⟨Except.ok memDB0, Except.ok filesDB0, []⟩

/-! ## Helper lemmas -/

theorem string_foldl_shift (l : List String) :
    ∀ acc : String, List.foldl (fun r t => r ++ t) acc l
      = acc ++ List.foldl (fun r t => r ++ t) "" l := by
  induction l with
  | nil => intro acc; simp [String.append_empty]
  | cons t ts ih =>
    intro acc
    simp only [List.foldl_cons]
    rw [ih (acc ++ t), ih ("" ++ t), String.empty_append, String.append_assoc]

theorem string_join_cons (s : String) (l : List String) :
    String.join (s :: l) = s ++ String.join l := by
  show List.foldl _ "" (s :: l) = _
  simp only [List.foldl_cons]
  rw [string_foldl_shift l ("" ++ s), String.empty_append]
  rfl

theorem foldl_blocks {α : Type} (g : α → String) (l : List α) :
    ∀ acc : String, List.foldl (fun r x => r ++ g x) acc l
      = acc ++ String.join (l.map g) := by
  induction l with
  | nil => intro acc; simp [String.join, String.append_empty]
  | cons x xs ih =>
    intro acc
    simp only [List.foldl_cons, List.map_cons, string_join_cons]
    rw [ih, String.append_assoc]

theorem buildContextStr_eq_join (label : String) (db : FilesDB) (titles : List String) :
    buildContextStr label db titles = String.join (titles.map (blockOf label db)) := by
  have hf : (fun (acc t : String) =>
      match db.lookup t with
      | some rec => acc ++ contextBlock label t rec.content
      | none => acc) = fun acc t => acc ++ blockOf label db t := by
    funext acc t
    cases h : db.lookup t <;> simp [blockOf, h, String.append_empty]
  rw [buildContextStr, hf, foldl_blocks, String.empty_append]

theorem join_blockOf_eq_filter (label : String) (db : FilesDB) (titles : List String) :
    String.join (titles.map (blockOf label db))
      = String.join ((presentTitles db titles).map (storedBlock label db)) := by
  induction titles with
  | nil => rfl
  | cons t ts ih =>
    cases h : db.lookup t with
    | some rec =>
      simp only [List.map_cons, presentTitles, List.filter_cons, h, Option.isSome_some,
        decide_True, if_true, string_join_cons]
      rw [show blockOf label db t = storedBlock label db t by
            simp [blockOf, storedBlock, h]]
      rw [show (ts.filter (fun t => (db.lookup t).isSome)).map (storedBlock label db)
            = (presentTitles db ts).map (storedBlock label db) by rfl]
      rw [ih]
    | none =>
      simp only [List.map_cons, presentTitles, List.filter_cons, h, Option.isSome_none,
        string_join_cons]
      rw [show blockOf label db t = "" by simp [blockOf, h], String.empty_append]
      exact ih

theorem buildContextJ_map_str (label : String) (db : FilesDB) (titles : List String) :
    ∀ acc, buildContextJ label db (titles.map Json.str) acc
      = Except.ok (titles.foldl (fun a t =>
          match db.lookup t with
          | some rec => a ++ contextBlock label t rec.content
          | none => a) acc) := by
  induction titles with
  | nil => intro acc; rfl
  | cons t ts ih =>
    intro acc
    simp only [List.map_cons, buildContextJ, List.foldl_cons]
    cases h : db.lookup t with
    | some rec => simp [h, ih]
    | none => simp [h, ih]

theorem buildContextJ_str_ok (label : String) (db : FilesDB) (titles : List String) :
    buildContextJ label db (titles.map Json.str) ""
      = Except.ok (buildContextStr label db titles) :=
  buildContextJ_map_str label db titles ""

theorem reqZero_map_recv {α : Type} (l : List α) (k : Nat) (es : List Ev) :
    reqZero k ((l.map fun _ => Ev.recv) ++ es) = reqZero (k + l.length) es := by
  induction l generalizing k with
  | nil => simp
  | cons x xs ih =>
    simp only [List.map_cons, List.cons_append, reqZero, List.append_eq]
    rw [ih (k + 1)]
    have h : k + 1 + xs.length = k + (xs.length + 1) := by omega
    rw [h, List.length_cons]

theorem sentEvents_ok (jp : String → Option Json) (env : Env)
    (cs : List P3.OAToolCall) (h : P3.execCalls jp env cs = Except.ok ())
    (k : Nat) (es : List Ev) :
    reqZero (k + cs.length) (P3.sentEvents jp env cs ++ es) = reqZero k es := by
  induction cs generalizing k with
  | nil => simp [P3.sentEvents]
  | cons c cs' ih =>
    cases hct : P3.callTool jp env c with
    | error e => simp [P3.execCalls, hct] at h
    | ok r =>
      have h' : P3.execCalls jp env cs' = Except.ok () := by
        simpa [P3.execCalls, hct] using h
      simp only [P3.sentEvents, hct, List.cons_append, reqZero, List.length_cons,
        List.append_eq]
      have hk : k + (cs'.length + 1) - 1 = k + cs'.length := by omega
      rw [hk, ih h' k]

theorem sentEvents_noReq (jp : String → Option Json) (env : Env)
    (cs : List P3.OAToolCall) (k : Nat) :
    reqZero k (P3.sentEvents jp env cs) = true := by
  induction cs generalizing k with
  | nil => rfl
  | cons c cs' ih =>
    cases hct : P3.callTool jp env c with
    | ok r => simp only [P3.sentEvents, hct, reqZero]; exact ih _
    | error e => simp [P3.sentEvents, hct, reqZero]

theorem execute_function_ok (env : Env) (name args : Json)
    (h : pyUnhashable name = false) :
    ∃ r, P2.execute_function env name args = Except.ok r := by
  cases name with
  | arr xs => simp [pyUnhashable] at h
  | obj fs => simp [pyUnhashable] at h
  | str n =>
    cases hc : TOOL_MAP_names.contains n with
    | true =>
      have hc' : n ∈ TOOL_MAP_names := by simpa using hc
      cases hct : P2.callTool env n args with
      | ok r => exact ⟨r, by simp [P2.execute_function, hc', hct]⟩
      | error e =>
        exact ⟨dumpsErrObj false ("执行 " ++ n ++ " 出错: " ++ e),
          by simp [P2.execute_function, hc', hct]⟩
    | false =>
      have hc' : n ∉ TOOL_MAP_names := by simpa using hc
      exact ⟨dumpsErrObj false ("函数 " ++ n ++ " 不存在"),
        by simp [P2.execute_function, hc']⟩
  | null => exact ⟨_, rfl⟩
  | bool b => exact ⟨_, rfl⟩
  | num n => exact ⟨_, rfl⟩

/-! ## Claims -/

/-- C3, counterexample: the claim says a keyword string whose token set is
empty returns no documents, but `select_files` (`2.py`/`3.py`) tests the
whole lower-cased query as one substring of the content, and the empty
query is a substring of everything: on the spec's own example store the
empty keyword string returns every document. -/
theorem c3_counterexample :
    pySplit (pyLower "") = [] ∧ P2.select_files_hits filesDB0 "" = ["lec1.pdf"] :=
  ⟨by decide, by decide⟩

/-- C3, amended: `search_files` (`agent.py`) returns exactly the titles
whose content or title contains at least one lower-cased whitespace-split
token of the keyword string, and an empty token set yields the empty
list; the `select_files` variants (`2.py`/`3.py`) instead return exactly
the titles whose content contains the whole lower-cased query as one
substring (title not searched, no tokenization, empty query matches
every document). -/
theorem c3_amended (db : FilesDB) (kw : String) :
    (pySplit (pyLower kw) = [] → Agent.search_files db kw = []) ∧
    (∀ t, t ∈ Agent.search_files db kw ↔
      ∃ c, (t, c) ∈ db ∧ (pySplit (pyLower kw)).any
        (fun k => pyIn k (pyLower c.content) || pyIn k (pyLower t)) = true) ∧
    (∀ t, t ∈ P2.select_files_hits db kw ↔
      ∃ c, (t, c) ∈ db ∧ pyIn (pyLower kw) (pyLower c.content) = true) := by
  refine ⟨?_, ?_, ?_⟩
  · intro h
    simp [Agent.search_files, h]
  · intro t
    simp only [Agent.search_files, List.mem_map, List.mem_filter]
    constructor
    · rintro ⟨⟨a, b⟩, ⟨hmem, hpred⟩, rfl⟩
      exact ⟨b, hmem, hpred⟩
    · rintro ⟨c, hmem, hpred⟩
      exact ⟨(t, c), ⟨hmem, hpred⟩, rfl⟩
  · intro t
    simp only [P2.select_files_hits, List.mem_map, List.mem_filter]
    constructor
    · rintro ⟨⟨a, b⟩, ⟨hmem, hpred⟩, rfl⟩
      exact ⟨b, hmem, hpred⟩
    · rintro ⟨c, hmem, hpred⟩
      exact ⟨(t, c), ⟨hmem, hpred⟩, rfl⟩

/-- C3, witness: on the example store, the empty keyword string has an
empty token set and `search_files` returns no documents. -/
theorem c3_witness : Agent.search_files filesDB0 "" = [] :=
  (c3_amended filesDB0 "").1 (by decide)

/-- C4, counterexample: the claim says a subject matching a key
case-insensitively as a substring returns the record, but `2.py`'s
`memory_load_function` tests exact `dict` membership of the lower-cased
subject: `"astro"` is a substring of the stored key `"astronomy"` yet
yields the error payload. -/
theorem c4_counterexample :
    pyIn (pyLower "astro") (pyLower "astronomy") = true ∧
    P2.memory_load_function (Except.ok memDB0) "astro"
      = dumpsErrObj false ("未找到 " ++ "astro" ++ " 的记忆信息") :=
  ⟨by decide, by decide⟩

/-- C4, amended: `get_memory` (`agent.py`) returns the formatted record of
the first key containing the lower-cased subject as a substring, and the
fixed not-found marker when no key matches; `memory_load_function`
(`2.py`) requires the lower-cased subject to equal a key exactly,
returning the serialized record on a hit and an error payload otherwise.
Both are total functions: no lookup raises. -/
theorem c4_amended (db : MemoryDB) (S : String) :
    ((∀ kv ∈ db.knowledge_levels, pyIn (pyLower S) (pyLower kv.1) = false) →
      Agent.get_memory db S = "No specific memory found for this category.") ∧
    (∀ kv, db.knowledge_levels.find? (fun p => pyIn (pyLower S) (pyLower p.1)) = some kv →
      Agent.get_memory db S = "User Knowledge in " ++ kv.1 ++ ": Level="
        ++ toString kv.2.level ++ ". Details: " ++ kv.2.detailed_description) ∧
    (∀ r, db.knowledge_levels.lookup (pyLower S) = some r →
      P2.memory_load_function (Except.ok db) S = dumpsRecord false r) ∧
    (db.knowledge_levels.lookup (pyLower S) = none →
      P2.memory_load_function (Except.ok db) S
        = dumpsErrObj false ("未找到 " ++ S ++ " 的记忆信息")) := by
  refine ⟨?_, ?_, ?_, ?_⟩
  · intro h
    have hn : db.knowledge_levels.find? (fun p => pyIn (pyLower S) (pyLower p.1)) = none := by
      rw [List.find?_eq_none]
      intro x hx
      simp [h x hx]
    simp [Agent.get_memory, hn]
  · intro kv h
    simp [Agent.get_memory, h]
  · intro r h
    simp [P2.memory_load_function, h]
  · intro h
    simp [P2.memory_load_function, h]

/-- C4, witness: on the example store, `get_memory` finds `"astronomy"`
from the capitalized substring `"Astro"`, and `memory_load_function`
returns its not-found payload for an absent subject. -/
theorem c4_witness :
    Agent.get_memory memDB0 "Astro" = "User Knowledge in " ++ "astronomy"
      ++ ": Level=" ++ toString (2 : Int) ++ ". Details: " ++ "basic" ∧
    P2.memory_load_function (Except.ok memDB0) "quantum"
      = dumpsErrObj false ("未找到 " ++ "quantum" ++ " 的记忆信息") :=
  ⟨(c4_amended memDB0 "Astro").2.1 ("astronomy", ⟨2, "basic"⟩) (by decide),
   (c4_amended memDB0 "quantum").2.2.2 (by decide)⟩

/-- C5: every reply-composition variant builds its context block as the
concatenation, in the order the titles were given, of one block per title
present in the store — each block carrying that title's full stored
content — and titles absent from the store contribute nothing; `2.py`'s
`reply_generator` embeds exactly that block in its prompt. -/
theorem c5_confirmed (db : FilesDB) (titles : List String) (instr : String)
    (chunks : List String) :
    buildContextStr "File" db titles
      = String.join ((presentTitles db titles).map (storedBlock "File" db)) ∧
    buildContextJ "文件名" db (titles.map Json.str) ""
      = Except.ok (String.join ((presentTitles db titles).map (storedBlock "文件名" db))) ∧
    P2.reply_generator (Except.ok db) (titles.map Json.str) instr chunks
      = ReplyResult.streamedOut
          (P2.final_prompt instr
            (String.join ((presentTitles db titles).map (storedBlock "文件名" db))))
          (pyStreamText chunks)
          ("\x7b\"status\": " ++ dumpsStr false "success" ++ ", \"reply\": "
            ++ dumpsStr false (pyStreamText chunks) ++ "\x7d") := by
  have h1 := (buildContextStr_eq_join "File" db titles).trans
    (join_blockOf_eq_filter "File" db titles)
  have hstr := (buildContextStr_eq_join "文件名" db titles).trans
    (join_blockOf_eq_filter "文件名" db titles)
  have h2 : buildContextJ "文件名" db (titles.map Json.str) ""
      = Except.ok (String.join ((presentTitles db titles).map
          (storedBlock "文件名" db))) := by
    rw [buildContextJ_str_ok, hstr]
  refine ⟨h1, h2, ?_⟩
  simp only [P2.reply_generator, P2.reply_gen_dyn, pyIterate, h2]

/-- C8: when the structured instruction in a model reply is unparsable
(the JSON parse of the extracted brace span fails), `directorAgent.run`
treats the reply as containing no tool call and ends the run normally,
presenting that reply text as the final answer after this single
completion request; nothing is raised. -/
theorem c8_confirmed (jp : String → Option Json) (env : Env) (raw : String)
    (rest : List String) (h : jp (P2.extract_json_span raw) = none) :
    P2.run jp env (raw :: rest) = Except.ok (raw, 1, []) := by
  have hp : P2.parse_function_call jp raw = Json.obj [] := by
    simp [P2.parse_function_call, h]
  simp [P2.run, hp, pyTruthy]

/-- C8, witness: a plain-prose reply (its brace span fails to parse) ends
the run with that prose as the final answer. -/
theorem c8_witness :
    P2.run (fun _ => none) env0 ["Sure, here is my answer."]
      = Except.ok ("Sure, here is my answer.", 1, []) :=
  c8_confirmed (fun _ => none) env0 "Sure, here is my answer." [] rfl

/-- C9, counterexample: in `agent.py` the stores are loaded at module
initialization with no handler, so a missing `memory.json` propagates as
an exception before any tool can run — it is not converted into a tool
result. -/
theorem c9_counterexample :
    Agent.moduleInit
        (Except.error (StoreErr.fileNotFound
          "[Errno 2] No such file or directory: 'memory.json'"))
        (Except.ok filesDB0)
      = Except.error (StoreErr.fileNotFound
          "[Errno 2] No such file or directory: 'memory.json'") :=
  rfl

/-- C9, amended: in `2.py` and `3.py` every one of the six tools re-reads
its store inside a `try` and converts a missing or malformed file into an
error result returned as the tool's value — a JSON error payload
everywhere except `3.py`'s `reply_generator`, which returns a plain
message string — never an exception; in `agent.py` the stores are read
once at import time with no handler, so a failing read aborts startup
instead of producing a tool result. -/
theorem c9_amended (e : StoreErr) (subject query instr ftj : String)
    (titles : List Json) (chunks : List String) (jp : String → Option Json) :
    P2.memory_load_function (Except.error e) subject
      = dumpsErrObj false ("读取记忆文件出错: " ++ e.msg) ∧
    (∀ m, P2.select_files (Except.error (StoreErr.fileNotFound m)) query
      = dumpsErrObj false "找不到 file_metadata.json 文件") ∧
    (∀ m, P2.select_files (Except.error (StoreErr.malformed m)) query
      = dumpsErrObj false ("搜索文件出错: " ++ m)) ∧
    (P2.reply_generator (Except.error e) titles instr chunks).ret
      = dumpsErrObj false ("读取文件内容出错: " ++ e.msg) ∧
    P3.memory_load_function (Except.error e) subject
      = dumpsErrObj true ("读取记忆文件出错: " ++ e.msg) ∧
    P3.select_files (Except.error e) query
      = dumpsErrObj true ("搜索文件出错: " ++ e.msg) ∧
    P3.reply_generator jp (Except.error e) ftj instr chunks
      = ReplyResult.early ("读取文件内容出错: " ++ e.msg) :=
  ⟨rfl, fun _ => rfl, fun _ => rfl, rfl, rfl, rfl, rfl⟩

/-- C10: in the OpenAI-style variant, a file-titles argument that is not
valid JSON (the parse oracle fails) is silently replaced by the empty
title list, and `reply_generator` still streams a reply whose prompt has
an empty reference context, returning its fixed completion message rather
than an error payload and raising nothing. -/
theorem c10_confirmed (jp : String → Option Json) (db : FilesDB)
    (ftj instr : String) (chunks : List String) (h : jp ftj = none) :
    P3.reply_generator jp (Except.ok db) ftj instr chunks
      = ReplyResult.streamedOut (P3.final_prompt instr "")
          (pyStreamText chunks) "回复已生成完毕。" := by
  simp [P3.reply_generator, P3.reply_gen_with_titles, h, pyIterate, buildContextJ]

/-- C10, witness: a concrete non-JSON title string streams a reply with
the empty reference context. -/
theorem c10_witness :
    P3.reply_generator (fun _ => none) (Except.ok filesDB0) "not json!!"
        "Summarize" ["x", "y"]
      = ReplyResult.streamedOut (P3.final_prompt "Summarize" "")
          (pyStreamText ["x", "y"]) "回复已生成完毕。" :=
  c10_confirmed (fun _ => none) filesDB0 "not json!!" "Summarize" ["x", "y"] rfl

/-- C6, counterexample: `agent.py`'s reply tool accumulates the streamed
chunks but, once the stream ends without error, returns a fixed
confirmation sentence — not the accumulated text: on a one-chunk stream
the return value differs from the streamed text. -/
theorem c6_counterexample :
    (Agent.generate_reply_tool filesDB0 "Summarize" ["lec1.pdf"] "Level 2"
        ["hello"]).streamed = "hello" ∧
    (Agent.generate_reply_tool filesDB0 "Summarize" ["lec1.pdf"] "Level 2"
        ["hello"]).ret = "Reply generated and streamed to user successfully." ∧
    (Agent.generate_reply_tool filesDB0 "Summarize" ["lec1.pdf"] "Level 2"
        ["hello"]).ret ≠ "hello" :=
  ⟨rfl, rfl, by decide⟩

/-- C6, amended: only `2.py`'s `reply_generator` returns the accumulated
stream text — on string titles it returns the JSON success payload
embedding the full accumulated text, and on every run of it that reaches
the end of the stream the returned payload embeds exactly the streamed
text; `agent.py` and `3.py` return fixed status sentences once the stream
ends without error, the accumulated text being only emitted to the output
sink. -/
theorem c6_amended (db : FilesDB) (titles : List String) (instr : String)
    (chunks : List String) (fls : List String) (uc : String) :
    (P2.reply_generator (Except.ok db) (titles.map Json.str) instr chunks).ret
      = "\x7b\"status\": " ++ dumpsStr false "success" ++ ", \"reply\": "
        ++ dumpsStr false (pyStreamText chunks) ++ "\x7d" ∧
    (∀ (src : Except StoreErr FilesDB) (ftv : Json) (p s r : String),
      P2.reply_gen_dyn src ftv instr chunks = ReplyResult.streamedOut p s r →
      r = "\x7b\"status\": " ++ dumpsStr false "success" ++ ", \"reply\": "
        ++ dumpsStr false s ++ "\x7d" ∧ s = pyStreamText chunks) ∧
    (Agent.generate_reply_tool db instr fls uc chunks).ret
      = "Reply generated and streamed to user successfully." ∧
    (∀ (src : Except StoreErr FilesDB) (parsed : Json) (p s r : String),
      P3.reply_gen_with_titles src parsed instr chunks
          = ReplyResult.streamedOut p s r →
      r = "回复已生成完毕。" ∧ s = pyStreamText chunks) := by
  refine ⟨?_, ?_, rfl, ?_⟩
  · have h2 := buildContextJ_str_ok "文件名" db titles
    simp only [P2.reply_generator, P2.reply_gen_dyn, pyIterate, h2,
      ReplyResult.ret]
  · intro src ftv p s r h
    simp only [P2.reply_gen_dyn] at h
    split at h
    · exact absurd h (by simp)
    · split at h
      · exact absurd h (by simp)
      · split at h
        · exact absurd h (by simp)
        · injection h with hp hs hr
          exact ⟨by rw [← hr, ← hs], hs.symm⟩
  · intro src parsed p s r h
    simp only [P3.reply_gen_with_titles] at h
    split at h
    · exact absurd h (by simp)
    · split at h
      · exact absurd h (by simp)
      · split at h
        · exact absurd h (by simp)
        · injection h with hp hs hr
          exact ⟨hr.symm, hs.symm⟩

/-- C6, witness: concrete streamed runs of `3.py`'s and `2.py`'s reply
tools — the former returns the fixed completion sentence, the latter the
success payload embedding the streamed text. -/
theorem c6_witness :
    ("回复已生成完毕。" = "回复已生成完毕。" ∧ "a" = pyStreamText ["a"]) ∧
    ("\x7b\"status\": " ++ dumpsStr false "success" ++ ", \"reply\": "
        ++ dumpsStr false "a" ++ "\x7d"
      = "\x7b\"status\": " ++ dumpsStr false "success" ++ ", \"reply\": "
        ++ dumpsStr false "a" ++ "\x7d" ∧ "a" = pyStreamText ["a"]) :=
  ⟨(c6_amended filesDB0 [] "summarize" ["a"] [] "level").2.2.2
      (Except.ok filesDB0) (Json.arr [])
      (P3.final_prompt "summarize" "") "a" "回复已生成完毕。" rfl,
   (c6_amended filesDB0 [] "summarize" ["a"] [] "level").2.1
      (Except.ok filesDB0) (Json.arr [])
      (P2.final_prompt "summarize" "") "a"
      ("\x7b\"status\": " ++ dumpsStr false "success" ++ ", \"reply\": "
        ++ dumpsStr false "a" ++ "\x7d") rfl⟩

/-- C1, counterexample: in the OpenAI-style variant a tool-call
instruction whose name is not registered makes the dispatch loop raise
`KeyError` out of the run: with one tool call followed by a terminal text
response the loop does not terminate after 1 + 1 completion requests. -/
theorem c1_counterexample :
    P3.run (fun _ => none) env0
        [⟨"", [⟨"nonexistent_tool", Json.obj []⟩]⟩, ⟨"done", []⟩]
      = Except.error ("KeyError: " ++ "nonexistent_tool") ∧
    P3.run (fun _ => none) env0
        [⟨"", [⟨"nonexistent_tool", Json.obj []⟩]⟩, ⟨"done", []⟩]
      ≠ Except.ok ("done", 2) := by
  have e : P3.run (fun _ => none) env0
      [⟨"", [⟨"nonexistent_tool", Json.obj []⟩]⟩, ⟨"done", []⟩]
    = Except.error ("KeyError: " ++ "nonexistent_tool") := by rfl
  exact ⟨e, by rw [e]; simp⟩

/-- C1, amended: the dispatch loop terminates after exactly n + 1
completion requests for n tool-call responses followed by a terminal text
response — in the prompt-driven variant (`2.py`) whenever each
instruction's name value is hashable (an array or object as name raises
`TypeError` at the registry membership test, before the guard, and aborts
the run; unknown-but-hashable names, unbindable or non-string arguments
and in-tool failures all become error payloads and keep the count), and
in the OpenAI-style variant (`3.py`) whenever every call names a
registered tool and its argument object binds the declared parameters
(otherwise the unguarded lookup or binding raises and aborts; non-string
argument values and in-tool failures are caught inside the tools and keep
the count). -/
theorem c1_amended :
    (∀ (jp : String → Option Json) (env : Env) (rawCalls : List String)
        (final : String),
      (∀ r ∈ rawCalls, ∃ fs, P2.parse_function_call jp r = Json.obj fs ∧
        fs ≠ [] ∧ pyUnhashable ((fs.lookup "name").getD Json.null) = false) →
      pyTruthy (P2.parse_function_call jp final) = false →
      ∃ results, P2.run jp env (rawCalls ++ [final])
        = Except.ok (final, rawCalls.length + 1, results)) ∧
    (∀ (jp : String → Option Json) (env : Env) (calls : List P3.OAToolCall)
        (final : String),
      (∀ c ∈ calls, ∃ r, P3.callTool jp env c = Except.ok r) →
      P3.run jp env (calls.map (fun c => ⟨"", [c]⟩) ++ [⟨final, []⟩])
        = Except.ok (final, calls.length + 1)) := by
  constructor
  · intro jp env rawCalls final h1 h2
    induction rawCalls with
    | nil =>
      refine ⟨[], ?_⟩
      simp [P2.run, h2]
    | cons r rs ih =>
      obtain ⟨fs, hfs, hne, hhash⟩ := h1 r (by simp)
      obtain ⟨results, hrun⟩ := ih (fun x hx => h1 x (by simp [hx]))
      obtain ⟨res, hexec⟩ := execute_function_ok env
        ((fs.lookup "name").getD Json.null)
        ((fs.lookup "args").getD (Json.obj [])) hhash
      have htr : pyTruthy (Json.obj fs) = true := by
        cases fs with
        | nil => exact absurd rfl hne
        | cons f fs' => simp [pyTruthy]
      refine ⟨res :: results, ?_⟩
      simp [List.cons_append, P2.run, hfs, htr, hexec, hrun, List.length_cons]
  · intro jp env calls final h
    induction calls with
    | nil => simp [P3.run]
    | cons c cs ih =>
      obtain ⟨r0, hr0⟩ := h c (by simp)
      have ihh := ih (fun x hx => h x (by simp [hx]))
      simp [List.map_cons, List.cons_append, P3.run, P3.execCalls, hr0,
        ihh, List.length_cons, List.isEmpty_cons, List.append_eq]

/-- C1, witness: one hashable-named tool call followed by a terminal
reply makes the prompt-driven loop end after two requests; one registered
tool call makes the OpenAI-style loop end after two. -/
theorem c1_witness :
    (∃ results, P2.run
        (fun s => if s.isEmpty then none
          else some (Json.obj [("call_function",
            Json.obj [("name", Json.str "select_files"),
                      ("args", Json.obj [("query", Json.str "orbit")])])]))
        env0 ["\x7bcall\x7d", "All set."]
        = Except.ok ("All set.", 2, results)) ∧
    P3.run (fun _ => none) env0
        [⟨"", [⟨"select_files", Json.obj [("query", Json.str "orbit")]⟩]⟩,
         ⟨"done", []⟩]
      = Except.ok ("done", 2) :=
  ⟨c1_amended.1
     (fun s => if s.isEmpty then none
       else some (Json.obj [("call_function",
         Json.obj [("name", Json.str "select_files"),
                   ("args", Json.obj [("query", Json.str "orbit")])])]))
     env0 ["\x7bcall\x7d"] "All set."
     (by
       intro r hr
       rw [List.mem_singleton] at hr
       subst hr
       exact ⟨[("name", Json.str "select_files"),
               ("args", Json.obj [("query", Json.str "orbit")])],
         by rfl, by simp, by rfl⟩)
     (by rfl),
   c1_amended.2 (fun _ => none) env0
     [⟨"select_files", Json.obj [("query", Json.str "orbit")]⟩] "done"
     (by
       intro c hc
       rw [List.mem_singleton] at hc
       subst hc
       exact ⟨_, rfl⟩)⟩

/-- C2, counterexample: in the OpenAI-style variant an unknown tool name
does not become an error payload: the registry lookup raises `KeyError`
and the request aborts instead of continuing to a new awaiting-model
state. -/
theorem c2_counterexample :
    P3.run (fun _ => none) env0
        [⟨"", [⟨"unknown_fn", Json.obj []⟩]⟩, ⟨"bye", []⟩]
      = Except.error ("KeyError: " ++ "unknown_fn") ∧
    P3.run (fun _ => none) env0
        [⟨"", [⟨"unknown_fn", Json.obj []⟩]⟩, ⟨"bye", []⟩]
      ≠ Except.ok ("bye", 2) := by
  have e : P3.run (fun _ => none) env0
      [⟨"", [⟨"unknown_fn", Json.obj []⟩]⟩, ⟨"bye", []⟩]
    = Except.error ("KeyError: " ++ "unknown_fn") := by rfl
  exact ⟨e, by rw [e]; simp⟩

/-- C2, amended: in the prompt-driven variant (`2.py`) a tool-call
instruction naming an unregistered tool yields the structured error
payload as that turn's tool result and the loop issues a new completion
request and ends normally on the following text response; in the
OpenAI-style variant (`3.py`) the unguarded registry lookup raises
`KeyError` and aborts the request. -/
theorem c2_amended (jp : String → Option Json) (env : Env)
    (raw final name : String) (fs : List (String × Json))
    (h1 : P2.parse_function_call jp raw = Json.obj fs)
    (h2 : fs.lookup "name" = some (Json.str name))
    (h3 : TOOL_MAP_names.contains name = false)
    (h4 : fs ≠ [])
    (h5 : pyTruthy (P2.parse_function_call jp final) = false) :
    P2.run jp env [raw, final]
      = Except.ok (final, 2, [dumpsErrObj false ("函数 " ++ name ++ " 不存在")]) := by
  have htr : pyTruthy (Json.obj fs) = true := by
    cases fs with
    | nil => exact absurd rfl h4
    | cons f fs' => simp [pyTruthy]
  have h3' : name ∉ TOOL_MAP_names := by simpa using h3
  simp [P2.run, h1, htr, h2, h5, P2.execute_function, h3']

/-- C2, witness: a concrete unknown-name call (`frobnicate`) produces the
error payload and the loop continues to a second completion request that
ends the run. -/
theorem c2_witness :
    P2.run
        (fun s => if s.isEmpty then none
          else some (Json.obj [("call_function",
            Json.obj [("name", Json.str "frobnicate")])]))
        env0
        ["\x7b\"call_function\": \x7b\"name\": \"frobnicate\"\x7d\x7d", "All done."]
      = Except.ok ("All done.", 2,
          [dumpsErrObj false ("函数 " ++ "frobnicate" ++ " 不存在")]) :=
  c2_amended
    (fun s => if s.isEmpty then none
      else some (Json.obj [("call_function",
        Json.obj [("name", Json.str "frobnicate")])]))
    env0 "\x7b\"call_function\": \x7b\"name\": \"frobnicate\"\x7d\x7d" "All done."
    "frobnicate" [("name", Json.str "frobnicate")]
    (by rfl) (by rfl) (by decide) (by simp) (by rfl)

/-- C7, counterexample: in the OpenAI-style variant one completion
response may carry several tool calls; on a response carrying two
registered calls the loop's event trace shows two tool-call requests
outstanding at once (the bound-1 checker rejects it) even though the run
completes normally. -/
theorem c7_counterexample :
    P3.trace (fun _ => none) env0
        [⟨"", [⟨"select_files", Json.obj [("query", Json.str "sun")]⟩,
               ⟨"select_files", Json.obj [("query", Json.str "moon")]⟩]⟩,
         ⟨"done", []⟩]
      = [Ev.req, Ev.recv, Ev.recv, Ev.sent, Ev.sent, Ev.req] ∧
    loopInv 1 0 (P3.trace (fun _ => none) env0
        [⟨"", [⟨"select_files", Json.obj [("query", Json.str "sun")]⟩,
               ⟨"select_files", Json.obj [("query", Json.str "moon")]⟩]⟩,
         ⟨"done", []⟩]) = false ∧
    P3.run (fun _ => none) env0
        [⟨"", [⟨"select_files", Json.obj [("query", Json.str "sun")]⟩,
               ⟨"select_files", Json.obj [("query", Json.str "moon")]⟩]⟩,
         ⟨"done", []⟩]
      = Except.ok ("done", 2) :=
  ⟨by rfl, by rfl, by rfl⟩

/-- C7, amended: in the prompt-driven variant (`2.py`) at most one
tool-call request is ever outstanding and every completion request is
issued with no unsent tool result, for every run; in the OpenAI-style
variant (`3.py`) a response may carry several simultaneous tool-call
requests, but every completion request is still issued only after every
received call's result has been appended. -/
theorem c7_amended :
    (∀ (jp : String → Option Json) (env : Env) (script : List String),
      loopInv 1 0 (P2.trace jp env script) = true) ∧
    (∀ (jp : String → Option Json) (env : Env) (script : List P3.OAResp),
      reqZero 0 (P3.trace jp env script) = true) := by
  constructor
  · intro jp env script
    induction script with
    | nil => rfl
    | cons out rest ih =>
      cases hfc : P2.parse_function_call jp out with
      | null => simp [P2.trace, hfc, pyTruthy, loopInv]
      | bool b => cases b <;> simp [P2.trace, hfc, pyTruthy, loopInv]
      | num n => simp [P2.trace, hfc, loopInv]
      | str s => simp [P2.trace, hfc, loopInv]
      | arr xs => simp [P2.trace, hfc, loopInv]
      | obj fs =>
        cases fs with
        | nil => simp [P2.trace, hfc, pyTruthy, loopInv]
        | cons f fs' =>
          cases hex : P2.execute_function env
              (((f :: fs').lookup "name").getD Json.null)
              (((f :: fs').lookup "args").getD (Json.obj [])) with
          | ok r0 => simp [P2.trace, hfc, pyTruthy, loopInv, hex, ih]
          | error e0 => simp [P2.trace, hfc, pyTruthy, loopInv, hex]
  · intro jp env script
    induction script with
    | nil => rfl
    | cons r rest ih =>
      cases hE : r.tool_calls.isEmpty with
      | true => simp [P3.trace, hE, reqZero]
      | false =>
        cases hec : P3.execCalls jp env r.tool_calls with
        | ok u =>
          cases u
          simp only [P3.trace, hE, hec, Bool.false_eq_true, if_false, reqZero,
            decide_True, Bool.true_and, List.append_assoc]
          rw [reqZero_map_recv, sentEvents_ok jp env _ hec 0]
          exact ih
        | error e =>
          simp only [P3.trace, hE, hec, Bool.false_eq_true, if_false, reqZero,
            decide_True, Bool.true_and, List.append_assoc, List.append_nil]
          rw [reqZero_map_recv]
          exact sentEvents_noReq jp env _ _
